import Mathlib

/-!
Shallow embedding of `src/backend/extraction_queue.py` (class `ExtractionQueue`),
the background extraction job queue of the feedfocus repository.

Modelling choices:
* The SQLite table `extraction_jobs` is a `List Job`; `UPDATE ... WHERE id = ?`
  becomes a `List.map` that rewrites every row whose `id` matches.
* The in-memory dict `self.active_jobs : Dict[topic, job_id]` is an association
  list with Python-dict semantics (`dictInsert`, `dictRemove`, `dictLookup`).
* `queue.PriorityQueue` holds `(priority, job_id, topic, user_id)` tuples and its
  `get` pops the tuple that is smallest in lexicographic tuple order (Python
  tuple comparison; strings compare code-point lexicographically, modelled by
  the `List Char` order on `String.toList`).  `dequeue` below pops that minimum.
* Timestamps (`datetime.now().isoformat()`) are abstract `Nat` instants; the SQL
  staleness test `updated_at < datetime('now','-20 minutes')` becomes
  `updated_at + STALE_SECONDS < now`.
* Columns that are NULL until first written are `Option`-valued.  The `error`
  column holds either the JSON blob `json.dumps({type, message, retry_eligible})`
  written by `_handle_job_failure` (constructor `ErrValue.structured`) or a raw
  message string (constructor `ErrValue.raw`).
* Raising `ValueError` is modelled by `Except.error` carrying the message.
-/

namespace FeedFocus

/-- Job status strings 'queued' | 'processing' | 'complete' | 'failed'. -/
inductive JobStatus
  | queued
  | processing
  | complete
  | failed
deriving DecidableEq, Repr

/-- `statusStr` renders a status as the string stored in the `status` column. -/
def statusStr : JobStatus → String
  | .queued => "queued"
  | .processing => "processing"
  | .complete => "complete"
  | .failed => "failed"

/-- The structured error payload `_handle_job_failure` serializes:
`{"type": ..., "message": ..., "retry_eligible": ...}`. -/
structure ErrorData where
  etype : String
  message : String
  retry_eligible : Bool
deriving DecidableEq, Repr

/-- Contents of the `error` column: the structured JSON blob or a raw string. -/
inductive ErrValue
  | structured (e : ErrorData)
  | raw (s : String)
deriving DecidableEq, Repr

/-- One row of the `extraction_jobs` table. -/
structure Job where
  id : String
  topic : String
  user_id : String
  priority : Int
  status : JobStatus
  insight_count : Option Nat
  error : Option ErrValue
  retry_count : Nat
  last_retry_at : Option Nat
  estimated_completion_at : Option Nat
  sources_processed : Option Nat
  extraction_duration_seconds : Option Nat
  created_at : Nat
  updated_at : Nat
deriving DecidableEq, Repr

/-- A `(priority, job_id, topic, user_id)` tuple held by `self.job_queue`. -/
structure QEntry where
  priority : Int
  job_id : String
  topic : String
  user_id : String
deriving DecidableEq, Repr

/-- The mutable state of one `ExtractionQueue` instance together with its
database: the `extraction_jobs` table, the `active_jobs` dict and the
`job_queue` contents (as the multiset of tuples currently queued). -/
structure QueueState where
  db : List Job
  active_jobs : List (String × String)
  job_queue : List QEntry
deriving DecidableEq, Repr

/-- `MAX_RETRIES = 3` (extraction_queue.py line 17). -/
def MAX_RETRIES : Nat := 3

/-- The 20-minute staleness threshold of `recover_stale_jobs`, in seconds. -/
def STALE_SECONDS : Nat := 1200

/-- Python dict lookup `topic in d` / `d[topic]`. -/
def dictLookup (l : List (String × String)) (k : String) : Option String :=
  match l.find? (fun p => decide (p.1 = k)) with
  | some p => some p.2
  | none => none

/-- Python dict assignment `d[k] = v`: overwrite in place, else append. -/
def dictInsert (l : List (String × String)) (k v : String) : List (String × String) :=
  if l.any (fun p => decide (p.1 = k)) then
    l.map (fun p => if p.1 = k then (k, v) else p)
  else
    l ++ [(k, v)]

/-- Python dict removal `d.pop(k, None)`. -/
def dictRemove (l : List (String × String)) (k : String) : List (String × String) :=
  l.filter (fun p => decide (p.1 ≠ k))

/-- Python tuple comparison `a <= b` on `(priority, job_id, topic, user_id)`
tuples: lexicographic, strings by code points. -/
def qLE (a b : QEntry) : Bool :=
  decide (a.priority < b.priority) ||
  (decide (a.priority = b.priority) &&
    (decide (a.job_id.toList < b.job_id.toList) ||
      (decide (a.job_id = b.job_id) &&
        (decide (a.topic.toList < b.topic.toList) ||
          (decide (a.topic = b.topic) &&
            (decide (a.user_id.toList < b.user_id.toList) ||
              decide (a.user_id = b.user_id)))))))

/-- Fold that keeps the smallest tuple seen so far (first one on ties). -/
def pickMin (m : QEntry) (l : List QEntry) : QEntry :=
  l.foldl (fun acc x => if qLE acc x then acc else x) m

/-- `PriorityQueue.get`: pop the smallest `(priority, job_id, topic, user_id)`
tuple, returning it and the remaining queue contents. -/
def dequeue (q : List QEntry) : Option (QEntry × List QEntry) :=
  match q with
  | [] => none
  | e :: l => some (pickMin e l, (e :: l).erase (pickMin e l))

/-- The row predicate of `add_job`'s duplicate check:
`WHERE topic = ? AND status IN ('queued', 'processing')`. -/
def activeForTopic (topic : String) (j : Job) : Bool :=
  decide (j.topic = topic ∧ (j.status = JobStatus.queued ∨ j.status = JobStatus.processing))

/-- The row the INSERT of `add_job` writes (lines 151-159): status queued,
retry count 0, both timestamps `now`, every column not in the INSERT left
NULL. -/
def newJob (topic user_id : String) (priority : Int) (job_id : String) (now : Nat) : Job :=
  { id := job_id, topic := topic, user_id := user_id, priority := priority,
    status := .queued, insight_count := none, error := none, retry_count := 0,
    last_retry_at := none, estimated_completion_at := none,
    sources_processed := none, extraction_duration_seconds := none,
    created_at := now, updated_at := now }

/-- `add_job(topic, user_id, priority)` (lines 109-179).  `job_id` stands for
the generated `uuid.uuid4()` and `now` for `datetime.now()`.  First the
in-memory `active_jobs` fast-reject, then the storage-layer duplicate check,
then the INSERT, the cache update and the
`job_queue.put((priority, job_id, topic, user_id))`. -/
def add_job (s : QueueState) (topic user_id : String) (priority : Int)
    (job_id : String) (now : Nat) : Except String QueueState :=
  if (dictLookup s.active_jobs topic).isSome then
    .error ("Job already exists for topic: " ++ topic)
  else
    match s.db.find? (activeForTopic topic) with
    | some existing =>
        .error ("Job already " ++ statusStr existing.status ++ " for topic: " ++ topic)
    | none =>
        .ok { db := s.db ++ [newJob topic user_id priority job_id now],
              active_jobs := dictInsert s.active_jobs topic job_id,
              job_queue := s.job_queue ++ [⟨priority, job_id, topic, user_id⟩] }

/-- `SELECT retry_count FROM extraction_jobs WHERE id = ?` with the
`row[0] if row else 0` fallback (lines 450-455). -/
def findRetryCount (db : List Job) (job_id : String) : Nat :=
  match db.find? (fun j => decide (j.id = job_id)) with
  | some row => row.retry_count
  | none => 0

/-- `_handle_job_failure(job_id, topic, user_id, error, is_transient)`
(lines 428-506): read the row's retry count, build the structured error blob;
if the failure is transient and the count is below `MAX_RETRIES`, set the row
back to queued with the incremented count, the blob and bumped timestamps, then
re-enqueue at the fixed priority 1 and re-insert the topic into `active_jobs`;
otherwise mark the row failed with the blob. -/
def handle_job_failure (s : QueueState) (job_id topic user_id error : String)
    (is_transient : Bool) (now : Nat) : QueueState :=
  let retry_count := findRetryCount s.db job_id
  let error_data : ErrorData :=
    { etype := if is_transient then "transient" else "permanent",
      message := error,
      retry_eligible := is_transient && decide (retry_count < MAX_RETRIES) }
  if is_transient && decide (retry_count < MAX_RETRIES) then
    { db := s.db.map (fun j =>
        if j.id = job_id then
          { j with status := .queued, error := some (.structured error_data),
                   retry_count := retry_count + 1, last_retry_at := some now,
                   updated_at := now }
        else j),
      active_jobs := dictInsert s.active_jobs topic job_id,
      job_queue := s.job_queue ++ [⟨1, job_id, topic, user_id⟩] }
  else
    { s with db := s.db.map (fun j =>
        if j.id = job_id then
          { j with status := .failed, error := some (.structured error_data),
                   updated_at := now }
        else j) }

/-- The substring test Python's `pattern in error_lower` performs, on `Char`
lists. -/
def startsWithCL : List Char → List Char → Bool
  | _, [] => true
  | [], _ :: _ => false
  | h :: hs, p :: ps => h == p && startsWithCL hs ps

/-- `pat` occurs as a contiguous substring of `hay`. -/
def containsCL (hay pat : List Char) : Bool :=
  match hay with
  | [] => pat.isEmpty
  | _ :: hs => startsWithCL hay pat || containsCL hs pat

/-- The transient pattern list of `_is_transient_error` (lines 518-526). -/
def transient_patterns : List String :=
  ["timeout", "connection", "rate limit", "503", "502", "429", "temporary"]

/-- `error.lower()` as a `Char` list. -/
def lowerCL (s : String) : List Char := s.toList.map Char.toLower

/-- `_is_transient_error(error)` (lines 508-529): some transient pattern occurs
in the lower-cased message. -/
def is_transient_error (error : String) : Bool :=
  transient_patterns.any (fun pattern => containsCL (lowerCL error) pattern.toList)

/-- `_complete_job` (lines 380-426): mark the row complete with the result
counters, the duration and a bumped `updated_at`. -/
def complete_job (s : QueueState) (job_id : String)
    (insight_count sources_processed duration now : Nat) : QueueState :=
  { s with db := s.db.map (fun j =>
      if j.id = job_id then
        { j with status := .complete, insight_count := some insight_count,
                 sources_processed := some sources_processed,
                 extraction_duration_seconds := some duration, updated_at := now }
      else j) }

/-- `update_progress(job_id, sources_processed)` (lines 558-581): the UPDATE
sets only `sources_processed`. -/
def update_progress (s : QueueState) (job_id : String) (sources_processed : Nat) :
    QueueState :=
  { s with db := s.db.map (fun j =>
      if j.id = job_id then { j with sources_processed := some sources_processed }
      else j) }

/-- Python truthiness of the optional `error` argument (`if error:`). -/
def errTruthy : Option String → Bool
  | none => false
  | some e => decide (e ≠ "")

/-- `_update_job_status(job_id, status, error)` (lines 583-619): set the status
(and the raw error message when one is given) and bump `updated_at`. -/
def update_job_status (s : QueueState) (job_id : String) (status : JobStatus)
    (error : Option String) (now : Nat) : QueueState :=
  if errTruthy error then
    { s with db := s.db.map (fun j =>
        if j.id = job_id then
          { j with status := status, error := some (.raw (error.getD "")),
                   updated_at := now }
        else j) }
  else
    { s with db := s.db.map (fun j =>
        if j.id = job_id then { j with status := status, updated_at := now }
        else j) }

/-- The stale-row predicate of `recover_stale_jobs`:
`status = 'processing' AND updated_at < datetime('now', '-20 minutes')`. -/
def isStale (now : Nat) (j : Job) : Bool :=
  decide (j.status = JobStatus.processing) && decide (j.updated_at + STALE_SECONDS < now)

/-- One iteration of the `for job_row in stale_jobs` loop of
`recover_stale_jobs` (lines 79-97): reset the row to queued with a bumped
`updated_at`, put `(priority, job_id, topic, user_id)` back on the queue and
record the topic in `active_jobs`. -/
def recoverStep (now : Nat) (acc : QueueState) (j : Job) : QueueState :=
  { db := acc.db.map (fun x =>
      if x.id = j.id then { x with status := .queued, updated_at := now } else x),
    active_jobs := dictInsert acc.active_jobs j.topic j.id,
    job_queue := acc.job_queue ++ [⟨j.priority, j.id, j.topic, j.user_id⟩] }

/-- `recover_stale_jobs()` (lines 57-107): fetch the stale rows, then run the
recovery loop over them. -/
def recover_stale_jobs (s : QueueState) (now : Nat) : QueueState :=
  (s.db.filter (isStale now)).foldl (recoverStep now) s

/-- `get_health_metrics()` (lines 230-245). -/
structure HealthMetrics where
  workers_active : Nat
  queue_size : Nat
  jobs_processing : Nat
deriving DecidableEq, Repr

/-- `get_health_metrics()`: worker count, `job_queue.qsize()` and
`len(self.active_jobs)`. -/
def get_health_metrics (num_workers : Nat) (s : QueueState) : HealthMetrics :=
  { workers_active := num_workers,
    queue_size := s.job_queue.length,
    jobs_processing := s.active_jobs.length }

/-- The tail of `_process_job` on the failure path (lines 344-353): the
exception handler calls `_handle_job_failure`, then the `finally` block pops
the topic from `active_jobs`. -/
def process_job_failure_path (s : QueueState) (job_id topic user_id error : String)
    (is_transient : Bool) (now : Nat) : QueueState :=
  let s1 := handle_job_failure s job_id topic user_id error is_transient now
  { s1 with active_jobs := dictRemove s1.active_jobs topic }

/-- The tail of `_process_job` on the success path: `_complete_job` followed by
the `finally` block popping the topic from `active_jobs`. -/
def process_job_success_path (s : QueueState) (job_id topic : String)
    (insight_count sources_processed duration now : Nat) : QueueState :=
  let s1 := complete_job s job_id insight_count sources_processed duration now
  { s1 with active_jobs := dictRemove s1.active_jobs topic }

/-- At most one row per topic is active (status queued or processing): the
storage invariant `add_job`'s duplicate check maintains. -/
def atMostOneActivePerTopic (db : List Job) : Prop :=
  ∀ t : String, db.countP (activeForTopic t) ≤ 1

/-- Every row's retry count is within the `MAX_RETRIES` cap. -/
def retryInv (db : List Job) : Prop :=
  ∀ j ∈ db, j.retry_count ≤ MAX_RETRIES

/-- The part of the tuple order the claims are about: the `(priority, job_id)`
prefix, compared lexicographically. -/
def lex2LE (a b : QEntry) : Prop :=
  a.priority < b.priority ∨
    (a.priority = b.priority ∧ a.job_id.toList ≤ b.job_id.toList)

lemma qLE_iff (a b : QEntry) :
    qLE a b = true ↔
      (a.priority < b.priority ∨
        (a.priority = b.priority ∧
          (a.job_id.toList < b.job_id.toList ∨
            (a.job_id = b.job_id ∧
              (a.topic.toList < b.topic.toList ∨
                (a.topic = b.topic ∧
                  (a.user_id.toList < b.user_id.toList ∨ a.user_id = b.user_id))))))) := by
  simp [qLE]

lemma lex2LE_of_qLE {a b : QEntry} (h : qLE a b = true) : lex2LE a b := by
  rw [qLE_iff] at h
  rcases h with h | ⟨hp, h⟩
  · exact Or.inl h
  · rcases h with h | ⟨hid, _⟩
    · exact Or.inr ⟨hp, le_of_lt h⟩
    · exact Or.inr ⟨hp, by rw [hid]⟩

lemma lex2LE_of_not_qLE {a b : QEntry} (h : qLE a b = false) : lex2LE b a := by
  have h' : ¬ (qLE a b = true) := by simp [h]
  rw [qLE_iff] at h'
  push_neg at h'
  rcases lt_or_eq_of_le h'.1 with hlt | heq
  · exact Or.inl hlt
  · exact Or.inr ⟨heq, (h'.2 heq.symm).1⟩

lemma lex2LE_refl (a : QEntry) : lex2LE a a :=
  Or.inr ⟨rfl, le_refl _⟩

lemma lex2LE_trans {a b c : QEntry} (h1 : lex2LE a b) (h2 : lex2LE b c) : lex2LE a c := by
  rcases h1 with h1 | ⟨h1p, h1i⟩
  · rcases h2 with h2 | ⟨h2p, _⟩
    · exact Or.inl (lt_trans h1 h2)
    · exact Or.inl (h2p ▸ h1)
  · rcases h2 with h2 | ⟨h2p, h2i⟩
    · exact Or.inl (h1p ▸ h2)
    · exact Or.inr ⟨h1p.trans h2p, le_trans h1i h2i⟩

lemma pickMin_mem (m : QEntry) (l : List QEntry) : pickMin m l ∈ m :: l := by
  induction l generalizing m with
  | nil => simp [pickMin]
  | cons x l ih =>
      have step : pickMin m (x :: l) = pickMin (if qLE m x then m else x) l := by
        simp [pickMin, List.foldl_cons]
      rw [step]
      have h := ih (if qLE m x then m else x)
      rcases List.mem_cons.mp h with h1 | h2
      · rw [h1]
        by_cases hq : qLE m x <;> simp [hq, List.mem_cons]
      · exact List.mem_cons_of_mem _ (List.mem_cons_of_mem _ h2)

lemma pickMin_le (m : QEntry) (l : List QEntry) :
    ∀ x ∈ m :: l, lex2LE (pickMin m l) x := by
  induction l generalizing m with
  | nil =>
      intro x hx
      simp at hx
      subst hx
      simpa [pickMin] using lex2LE_refl x
  | cons y l ih =>
      intro x hx
      have step : pickMin m (y :: l) = pickMin (if qLE m y then m else y) l := by
        simp [pickMin, List.foldl_cons]
      rw [step]
      have hcc : lex2LE (pickMin (if qLE m y then m else y) l) (if qLE m y then m else y) :=
        ih (if qLE m y then m else y) (if qLE m y then m else y) (by simp)
      have hcm : lex2LE (if qLE m y then m else y) m := by
        by_cases hq : qLE m y
        · simpa [hq] using lex2LE_refl m
        · have hq' : qLE m y = false := by simpa using hq
          simpa [hq] using lex2LE_of_not_qLE hq'
      have hcy : lex2LE (if qLE m y then m else y) y := by
        by_cases hq : qLE m y
        · simpa [hq] using lex2LE_of_qLE hq
        · simpa [hq] using lex2LE_refl y
      rcases List.mem_cons.mp hx with h1 | h2
      · rw [h1]
        exact lex2LE_trans hcc hcm
      · rcases List.mem_cons.mp h2 with h3 | h4
        · rw [h3]
          exact lex2LE_trans hcc hcy
        · exact ih (if qLE m y then m else y) x (List.mem_cons_of_mem _ h4)

lemma dequeue_le {q : List QEntry} {d : QEntry} {r : List QEntry}
    (h : dequeue q = some (d, r)) : ∀ e ∈ q, lex2LE d e := by
  cases q with
  | nil => simp [dequeue] at h
  | cons a l =>
      simp only [dequeue, Option.some.injEq, Prod.mk.injEq] at h
      intro e he
      exact h.1 ▸ pickMin_le a l e he

lemma dictRemove_keys (l : List (String × String)) (k : String) :
    ∀ p ∈ dictRemove l k, p.1 ≠ k := by
  intro p hp
  have h := (List.mem_filter.mp hp).2
  simpa using h

lemma dictLookup_dictRemove (l : List (String × String)) (k : String) :
    dictLookup (dictRemove l k) k = none := by
  unfold dictLookup
  have h : (dictRemove l k).find? (fun p => decide (p.1 = k)) = none := by
    rw [List.find?_eq_none]
    intro p hp
    simpa using dictRemove_keys l k p hp
  rw [h]

/-- The row rewrite of the recovery UPDATE: status back to queued, `updated_at`
bumped, every other column untouched. -/
def resetRow (now : Nat) (x : Job) : Job :=
  { x with status := JobStatus.queued, updated_at := now }

lemma recoverStep_db (now : Nat) (acc : QueueState) (j : Job) :
    (recoverStep now acc j).db =
      acc.db.map (fun x => if x.id = j.id then resetRow now x else x) := rfl

lemma resetRow_id (now : Nat) (x : Job) : (resetRow now x).id = x.id := rfl

lemma resetRow_idem (now : Nat) (x : Job) :
    resetRow now (resetRow now x) = resetRow now x := rfl

lemma recover_foldl_db (now : Nat) (L : List Job) (t : QueueState) :
    (L.foldl (recoverStep now) t).db =
      t.db.map (fun x =>
        if L.any (fun j => decide (j.id = x.id)) then resetRow now x else x) := by
  induction L generalizing t with
  | nil => simp
  | cons j L ih =>
      rw [List.foldl_cons, ih, recoverStep_db, List.map_map]
      congr 1
      funext x
      simp only [Function.comp_apply]
      by_cases h1 : x.id = j.id
      · have hj : decide (j.id = x.id) = true := decide_eq_true h1.symm
        simp only [if_pos h1, List.any_cons, hj, Bool.true_or, if_true, resetRow_id]
        by_cases h2 : L.any (fun j' => decide (j'.id = x.id)) <;>
          simp [h2, resetRow_idem]
      · have hj : decide (j.id = x.id) = false := decide_eq_false (fun h => h1 h.symm)
        simp only [if_neg h1, List.any_cons, hj, Bool.false_or]

lemma recover_foldl_queue (now : Nat) (L : List Job) (t : QueueState) :
    (L.foldl (recoverStep now) t).job_queue =
      t.job_queue ++ L.map (fun j => ⟨j.priority, j.id, j.topic, j.user_id⟩) := by
  induction L generalizing t with
  | nil => simp
  | cons j L ih =>
      rw [List.foldl_cons, ih]
      simp [recoverStep, List.append_assoc]

lemma recover_db_not_stale (s : QueueState) (now : Nat) :
    ∀ x ∈ (recover_stale_jobs s now).db, isStale now x = false := by
  intro x hx
  unfold recover_stale_jobs at hx
  rw [recover_foldl_db] at hx
  rcases List.mem_map.mp hx with ⟨y, hy, hxy⟩
  by_cases hc : (s.db.filter (isStale now)).any (fun j => decide (j.id = y.id))
  · rw [← hxy]
    simp [hc, isStale, resetRow]
  · rw [← hxy]
    simp only [hc, if_false, Bool.false_eq_true]
    by_cases hs : isStale now y
    · exact absurd (List.any_eq_true.mpr ⟨y, List.mem_filter.mpr ⟨hy, hs⟩, by simp⟩) hc
    · simpa using hs

lemma recover_stale_fixpoint (s : QueueState) (now : Nat) :
    recover_stale_jobs (recover_stale_jobs s now) now = recover_stale_jobs s now := by
  have hemp : (recover_stale_jobs s now).db.filter (isStale now) = [] := by
    rw [List.filter_eq_nil_iff]
    intro a ha
    simp [recover_db_not_stale s now a ha]
  have hdef : recover_stale_jobs (recover_stale_jobs s now) now =
      ((recover_stale_jobs s now).db.filter (isStale now)).foldl (recoverStep now)
        (recover_stale_jobs s now) := rfl
  rw [hdef, hemp]
  rfl

lemma add_job_ok_iff (s : QueueState) (topic user_id : String) (priority : Int)
    (job_id : String) (now : Nat) (s' : QueueState) :
    add_job s topic user_id priority job_id now = Except.ok s' ↔
      ((dictLookup s.active_jobs topic).isSome = false ∧
        s.db.find? (activeForTopic topic) = none ∧
        s' = { db := s.db ++ [newJob topic user_id priority job_id now],
               active_jobs := dictInsert s.active_jobs topic job_id,
               job_queue := s.job_queue ++ [⟨priority, job_id, topic, user_id⟩] }) := by
  unfold add_job
  by_cases hc : (dictLookup s.active_jobs topic).isSome = true
  · simp [hc]
  · cases hf : s.db.find? (activeForTopic topic) with
    | some e => simp [hc, hf]
    | none =>
        simp [hc, hf, eq_comm]

/-- Claim C1: while a row for topic `T` with status queued or processing
exists, `add_job(T, requesterId, priority)` fails with the duplicate error —
an `Except.error`, which carries no new state, so no row is inserted — and a
successful `add_job` preserves the at-most-one-active-job-per-topic
invariant. -/
theorem add_job_duplicate_rejection (s : QueueState) (topic user_id : String)
    (priority : Int) (job_id : String) (now : Nat) :
    ((∃ j ∈ s.db, j.topic = topic ∧
        (j.status = JobStatus.queued ∨ j.status = JobStatus.processing)) →
      ∃ msg, add_job s topic user_id priority job_id now = Except.error msg)
  ∧ (∀ s', add_job s topic user_id priority job_id now = Except.ok s' →
      atMostOneActivePerTopic s.db → atMostOneActivePerTopic s'.db) := by
  constructor
  · intro h
    unfold add_job
    by_cases hc : (dictLookup s.active_jobs topic).isSome = true
    · rw [if_pos hc]
      exact ⟨_, rfl⟩
    · rw [if_neg hc]
      cases hf : s.db.find? (activeForTopic topic) with
      | some e => exact ⟨_, rfl⟩
      | none =>
          exfalso
          obtain ⟨j, hj, h1, h2⟩ := h
          have hpred : activeForTopic topic j = true := by
            simp [activeForTopic, h1, h2]
          exact List.find?_eq_none.mp hf j hj hpred
  · intro s' hok hinv
    obtain ⟨hc, hf, hs⟩ := (add_job_ok_iff s topic user_id priority job_id now s').mp hok
    subst hs
    intro t
    show (s.db ++ [newJob topic user_id priority job_id now]).countP (activeForTopic t) ≤ 1
    rw [List.countP_append]
    by_cases ht : t = topic
    · subst ht
      have h0 : s.db.countP (activeForTopic t) = 0 :=
        List.countP_eq_zero.mpr (List.find?_eq_none.mp hf)
      rw [h0]
      simp only [List.countP_cons, List.countP_nil, Nat.zero_add]
      split <;> omega
    · have hjob : activeForTopic t (newJob topic user_id priority job_id now) = false := by
        simp only [activeForTopic, decide_eq_false_iff_not]
        intro hh
        exact ht hh.1.symm
      simp only [List.countP_cons, List.countP_nil, hjob, if_false]
      have := hinv t
      simp only [Bool.false_eq_true, if_false]
      omega

lemma handle_job_failure_retry (s : QueueState) (job_id topic user_id error : String)
    (now : Nat) (h : findRetryCount s.db job_id < MAX_RETRIES) :
    handle_job_failure s job_id topic user_id error true now =
      { db := s.db.map (fun j =>
          if j.id = job_id then
            { j with
                status := JobStatus.queued,
                error := some (.structured ⟨"transient", error, true⟩),
                retry_count := findRetryCount s.db job_id + 1,
                last_retry_at := some now,
                updated_at := now }
          else j),
        active_jobs := dictInsert s.active_jobs topic job_id,
        job_queue := s.job_queue ++ [⟨1, job_id, topic, user_id⟩] } := by
  unfold handle_job_failure
  simp [h]

lemma handle_job_failure_exhausted (s : QueueState) (job_id topic user_id error : String)
    (now : Nat) (h : ¬ findRetryCount s.db job_id < MAX_RETRIES) :
    handle_job_failure s job_id topic user_id error true now =
      { s with db := s.db.map (fun j =>
          if j.id = job_id then
            { j with
                status := JobStatus.failed,
                error := some (.structured ⟨"transient", error, false⟩),
                updated_at := now }
          else j) } := by
  unfold handle_job_failure
  simp [h]

/-- Claim C3: `retry_count` never exceeds `MAX_RETRIES` — the inserted row
starts at 0 and `_handle_job_failure` only increments below the cap — and a
transient failure handled when the stored `retry_count` equals `MAX_RETRIES`
marks the row failed, not queued. -/
theorem retry_count_never_exceeds_max (s : QueueState)
    (job_id topic user_id error : String) (is_transient : Bool) (now : Nat) :
    (retryInv s.db →
      retryInv (handle_job_failure s job_id topic user_id error is_transient now).db)
  ∧ (findRetryCount s.db job_id = MAX_RETRIES →
      ∀ x ∈ (handle_job_failure s job_id topic user_id error true now).db,
        x.id = job_id → x.status = JobStatus.failed ∧ x.status ≠ JobStatus.queued)
  ∧ (∀ (priority : Int) (job_id2 : String) (s' : QueueState),
      add_job s topic user_id priority job_id2 now = Except.ok s' →
      retryInv s.db → retryInv s'.db) := by
  refine ⟨?_, ?_, ?_⟩
  · intro hinv
    unfold handle_job_failure
    by_cases hb : (is_transient && decide (findRetryCount s.db job_id < MAX_RETRIES)) = true
    · rw [if_pos hb]
      intro x hx
      rcases List.mem_map.mp hx with ⟨y, hy, rfl⟩
      by_cases hid : y.id = job_id
      · rw [if_pos hid]
        show findRetryCount s.db job_id + 1 ≤ MAX_RETRIES
        have hlt : findRetryCount s.db job_id < MAX_RETRIES := by
          simp only [Bool.and_eq_true, decide_eq_true_eq] at hb
          exact hb.2
        omega
      · rw [if_neg hid]
        exact hinv y hy
    · rw [if_neg hb]
      intro x hx
      rcases List.mem_map.mp hx with ⟨y, hy, rfl⟩
      by_cases hid : y.id = job_id
      · rw [if_pos hid]
        exact hinv y hy
      · rw [if_neg hid]
        exact hinv y hy
  · intro hmax x hx hid
    have hb : ¬ findRetryCount s.db job_id < MAX_RETRIES := by simp [hmax]
    rw [handle_job_failure_exhausted s job_id topic user_id error now hb] at hx
    rcases List.mem_map.mp hx with ⟨y, hy, rfl⟩
    by_cases hyid : y.id = job_id
    · rw [if_pos hyid]
      exact ⟨rfl, by simp⟩
    · rw [if_neg hyid] at hid
      exact absurd hid hyid
  · intro priority job_id2 s' hok hinv
    obtain ⟨_, _, hs⟩ := (add_job_ok_iff s topic user_id priority job_id2 now s').mp hok
    subst hs
    intro j hj
    rcases List.mem_append.mp hj with h | h
    · exact hinv j h
    · simp at h
      subst h
      show (0 : Nat) ≤ MAX_RETRIES
      exact Nat.zero_le _

/-- Claim C4 (amended): `_handle_job_failure` re-enqueues a transient failure
below the retry cap at the fixed priority value 1, whatever the job's original
priority was (the state `s`, and hence the stored priority, is arbitrary and
the requeued tuple never depends on it).  Note the scheduler pops the
*smallest* priority value first, so this fixed value 1 makes retries dequeue
ahead of fresh default-priority-5 work, not behind it. -/
theorem auto_retry_fixed_priority_one (s : QueueState)
    (job_id topic user_id error : String) (now : Nat)
    (h : findRetryCount s.db job_id < MAX_RETRIES) :
    (handle_job_failure s job_id topic user_id error true now).job_queue =
      s.job_queue ++ [⟨1, job_id, topic, user_id⟩] := by
  rw [handle_job_failure_retry s job_id topic user_id error now h]

/-- Witness for claim C4's amended theorem at a concrete state. -/
theorem auto_retry_fixed_priority_one_witness :
    (handle_job_failure ⟨[], [], []⟩ "j" "t" "u" "boom" true 0).job_queue =
      ([] : List QEntry) ++ [⟨1, "j", "t", "u"⟩] :=
  auto_retry_fixed_priority_one ⟨[], [], []⟩ "j" "t" "u" "boom" 0 (by decide)

/-- A concrete queued row (priority 5, retry count 0) used by the concrete
checks below. -/
def exJob : Job :=
  { id := "j1", topic := "t1", user_id := "u1", priority := 5, status := .queued,
    insight_count := none, error := none, retry_count := 0, last_retry_at := none,
    estimated_completion_at := none, sources_processed := none,
    extraction_duration_seconds := none, created_at := 0, updated_at := 0 }

/-- Counterexample to claim C4 as stated: after a transient failure of job
`j1` is requeued at the fixed priority 1, with a fresh priority-5 entry
waiting, the very next dequeue pops the retried job — the retry dequeues
*ahead of* the fresh higher-priority-value work, not behind it. -/
theorem auto_retry_dequeues_ahead_of_fresh :
    (dequeue (handle_job_failure ⟨[exJob], [], [⟨5, "fresh", "ft", "fu"⟩]⟩
        "j1" "t1" "u1" "timeout" true 9).job_queue).map Prod.fst =
      some ⟨1, "j1", "t1", "u1"⟩ ∧ (1 : Int) < 5 := by decide

/-- Claim C2 (amended): the dequeued tuple's priority value is minimal among
everything in the queue — the job with the strictly *lower* priority value
dequeues first (`queue.PriorityQueue` is a min-heap; `add_job`'s docstring:
lower number = higher priority). -/
theorem dequeue_pops_lowest_priority_value {q : List QEntry} {d : QEntry}
    {r : List QEntry} {e : QEntry} (h1 : dequeue q = some (d, r)) (h2 : e ∈ q) :
    d.priority ≤ e.priority := by
  rcases dequeue_le h1 e h2 with h | ⟨h, _⟩
  · exact le_of_lt h
  · exact le_of_eq h

/-- Witness for claim C2's amended theorem at a concrete two-entry queue. -/
theorem dequeue_pops_lowest_priority_value_witness :
    (⟨1, "b", "t2", "u2"⟩ : QEntry).priority ≤ (⟨5, "a", "t", "u"⟩ : QEntry).priority :=
  @dequeue_pops_lowest_priority_value [⟨5, "a", "t", "u"⟩, ⟨1, "b", "t2", "u2"⟩]
    ⟨1, "b", "t2", "u2"⟩ [⟨5, "a", "t", "u"⟩] ⟨5, "a", "t", "u"⟩ (by decide) (by decide)

/-- Counterexample to claim C2 as stated: with two ready jobs of priorities 5
and 1, the priority-1 job (the strictly lower value) dequeues first. -/
theorem higher_priority_value_does_not_dequeue_first :
    dequeue [⟨5, "a", "t", "u"⟩, ⟨1, "b", "t2", "u2"⟩] =
      some (⟨1, "b", "t2", "u2"⟩, [⟨5, "a", "t", "u"⟩]) ∧ (1 : Int) < 5 := by decide

/-- Claim C7 (amended): among ready jobs the dequeued entry is minimal in the
lexicographic order on `(priority, job_id)`: ties of equal priority break by
the code-point order of the random UUID `job_id` (the third tuple component
after priority), not by any insertion-sequence counter — the enqueued tuples
carry none. -/
theorem dequeue_tie_break_by_job_id {q : List QEntry} {d : QEntry}
    {r : List QEntry} {e : QEntry} (h1 : dequeue q = some (d, r)) (h2 : e ∈ q) :
    d.priority < e.priority ∨
      (d.priority = e.priority ∧ d.job_id.toList ≤ e.job_id.toList) :=
  dequeue_le h1 e h2

/-- Witness for claim C7's amended theorem at a concrete equal-priority
queue. -/
theorem dequeue_tie_break_by_job_id_witness :
    (⟨5, "a", "t", "u"⟩ : QEntry).priority < (⟨5, "b", "t", "u"⟩ : QEntry).priority ∨
      ((⟨5, "a", "t", "u"⟩ : QEntry).priority = (⟨5, "b", "t", "u"⟩ : QEntry).priority ∧
        ("a" : String).toList ≤ ("b" : String).toList) :=
  @dequeue_tie_break_by_job_id [⟨5, "b", "t", "u"⟩, ⟨5, "a", "t", "u"⟩]
    ⟨5, "a", "t", "u"⟩ [⟨5, "b", "t", "u"⟩] ⟨5, "b", "t", "u"⟩ (by decide) (by decide)

/-- Counterexample to claim C7 as stated: two equal-priority entries enqueued
in the order `"b"` then `"a"`; the dequeue pops the `"a"` entry, so the one
enqueued first does not dequeue first. -/
theorem equal_priority_insertion_order_not_preserved :
    dequeue [⟨5, "b", "t", "u"⟩, ⟨5, "a", "t", "u"⟩] =
      some (⟨5, "a", "t", "u"⟩, [⟨5, "b", "t", "u"⟩]) ∧ ("b" : String) ≠ "a" := by decide

/-- Claim C5 (amended): handling a transient failure with the stored retry
count below `MAX_RETRIES` sets the row back to queued with the count
incremented — but the stored error is *not* cleared: the UPDATE writes the
structured blob `{type: "transient", message, retry_eligible: true}` into the
`error` column of the requeued row. -/
theorem transient_requeue_keeps_structured_error (s : QueueState)
    (job_id topic user_id msg : String) (now : Nat)
    (h : findRetryCount s.db job_id < MAX_RETRIES) :
    ∀ x ∈ (handle_job_failure s job_id topic user_id msg true now).db,
      x.id = job_id →
        x.status = JobStatus.queued ∧
        x.retry_count = findRetryCount s.db job_id + 1 ∧
        x.error = some (.structured ⟨"transient", msg, true⟩) ∧
        x.updated_at = now := by
  intro x hx hid
  rw [handle_job_failure_retry s job_id topic user_id msg now h] at hx
  rcases List.mem_map.mp hx with ⟨y, hy, rfl⟩
  by_cases hyid : y.id = job_id
  · rw [if_pos hyid]
    exact ⟨rfl, rfl, rfl, rfl⟩
  · rw [if_neg hyid] at hid
    exact absurd hid hyid

/-- The requeued row the witness for claim C5's amended theorem checks. -/
def retriedJob : Job :=
  { exJob with
      status := .queued,
      retry_count := 1,
      error := some (.structured ⟨"transient", "boom", true⟩),
      last_retry_at := some 7,
      updated_at := 7 }

/-- Witness for claim C5's amended theorem at a concrete one-row store. -/
theorem transient_requeue_keeps_structured_error_witness :
    retriedJob.status = JobStatus.queued ∧
    retriedJob.retry_count = findRetryCount [exJob] "j1" + 1 ∧
    retriedJob.error = some (.structured ⟨"transient", "boom", true⟩) ∧
    retriedJob.updated_at = 7 :=
  transient_requeue_keeps_structured_error ⟨[exJob], [], []⟩ "j1" "t1" "u1" "boom" 7
    (by decide) retriedJob (by decide) (by decide)

/-- Counterexample to claim C5 as stated: a transient failure of the fresh row
`j1` requeues it with the structured error stored — the queued row's `error`
is not `none`. -/
theorem requeue_error_not_cleared :
    (handle_job_failure ⟨[exJob], [], []⟩ "j1" "t1" "u1" "Connection timeout" true 7).db.map
        Job.error =
      [some (.structured ⟨"transient", "Connection timeout", true⟩)] ∧
    (some (ErrValue.structured ⟨"transient", "Connection timeout", true⟩) ≠
      (none : Option ErrValue)) ∧
    (handle_job_failure ⟨[exJob], [], []⟩ "j1" "t1" "u1" "Connection timeout" true 7).db.map
        Job.status =
      [JobStatus.queued] := by decide

/-- Claim C6 (amended): `_update_job_status` bumps `updated_at` to `now` on
the targeted row, but `update_progress`'s UPDATE sets only
`sources_processed`, so every row's `updated_at` is left unchanged. -/
theorem update_progress_does_not_bump_updated_at (s : QueueState) (job_id : String)
    (n : Nat) (st : JobStatus) (err : Option String) (now : Nat) :
    ((update_progress s job_id n).db.map Job.updated_at = s.db.map Job.updated_at)
  ∧ (∀ x ∈ (update_job_status s job_id st err now).db, x.id = job_id →
      x.updated_at = now) := by
  constructor
  · show (s.db.map _).map Job.updated_at = s.db.map Job.updated_at
    rw [List.map_map]
    congr 1
    funext j
    simp only [Function.comp_apply]
    by_cases h : j.id = job_id
    · rw [if_pos h]
    · rw [if_neg h]
  · intro x hx hid
    unfold update_job_status at hx
    by_cases he : errTruthy err = true
    · rw [if_pos he] at hx
      rcases List.mem_map.mp hx with ⟨y, hy, rfl⟩
      by_cases hyid : y.id = job_id
      · rw [if_pos hyid]
      · rw [if_neg hyid] at hid
        exact absurd hid hyid
    · rw [if_neg he] at hx
      rcases List.mem_map.mp hx with ⟨y, hy, rfl⟩
      by_cases hyid : y.id = job_id
      · rw [if_pos hyid]
      · rw [if_neg hyid] at hid
        exact absurd hid hyid

/-- Counterexample to claim C6 as stated: `update_progress` does change the
row (its `sources_processed` becomes 7) yet its `updated_at` is exactly the
old value — nothing refreshes the timestamp (the UPDATE at lines 573-577 sets
only `sources_processed`). -/
theorem update_progress_leaves_old_timestamp :
    (update_progress ⟨[exJob], [], []⟩ "j1" 7).db =
      [{ exJob with sources_processed := some 7 }] ∧
    ({ exJob with sources_processed := some 7 } : Job).updated_at = exJob.updated_at := by
  decide

/-- Claim C8: `_is_transient_error` returns true exactly when the lower-cased
message contains one of the substrings "timeout", "connection", "rate limit",
"429", "502", "503" or "temporary" (and hence is classified permanent for
every other message). -/
theorem is_transient_error_pattern_spec (e : String) :
    is_transient_error e = true ↔
      (containsCL (lowerCL e) "timeout".toList = true ∨
       containsCL (lowerCL e) "connection".toList = true ∨
       containsCL (lowerCL e) "rate limit".toList = true ∨
       containsCL (lowerCL e) "429".toList = true ∨
       containsCL (lowerCL e) "502".toList = true ∨
       containsCL (lowerCL e) "503".toList = true ∨
       containsCL (lowerCL e) "temporary".toList = true) := by
  simp only [is_transient_error, transient_patterns, List.any_cons, List.any_nil,
    Bool.or_eq_true, Bool.false_eq_true, or_false]
  tauto

/-- Claim C9: `recover_stale_jobs` resets every stale processing row to queued
(changing only `status` and `updated_at`, so priority and topic are
preserved), enqueues exactly one tuple per stale row carrying the row's
original priority and topic, and an immediate second call (same `now`) is a
complete no-op, because a reset row no longer satisfies the stale-processing
predicate — so across the two calls each orphaned job is enqueued exactly
once. -/
theorem recover_stale_jobs_idempotent (s : QueueState) (now : Nat) :
    recover_stale_jobs (recover_stale_jobs s now) now = recover_stale_jobs s now
  ∧ (recover_stale_jobs s now).job_queue =
      s.job_queue ++ (s.db.filter (isStale now)).map
        (fun j => ⟨j.priority, j.id, j.topic, j.user_id⟩)
  ∧ (recover_stale_jobs s now).db =
      s.db.map (fun x =>
        if (s.db.filter (isStale now)).any (fun j => decide (j.id = x.id)) then
          resetRow now x
        else x) :=
  ⟨recover_stale_fixpoint s now, recover_foldl_queue now _ s, recover_foldl_db now _ s⟩

/-- Claim C10: after `_process_job` finishes handling a transient failure of
the job for topic `T` — the failure handler requeues the row and re-inserts
`T` into `active_jobs`, and only then the `finally` block pops `T` — the topic
is absent from the `active_jobs` cache.  Hence the retry-queued job is
invisible to the cache-based fast-reject and to the `jobs_processing` metric
(which counts exactly that cache), while the row sits queued in the store, so
a duplicate submission for `T` is rejected only by the storage-layer check of
`add_job`. -/
theorem retry_requeued_job_invisible_to_cache (s : QueueState)
    (job_id topic user_id msg : String) (now : Nat) (n : Nat)
    (user2 : String) (p2 : Int) (job_id2 : String) (now2 : Nat) (row : Job)
    (hfind : s.db.find? (fun j => decide (j.id = job_id)) = some row)
    (htopic : row.topic = topic)
    (hrc : row.retry_count < MAX_RETRIES) :
    (∀ pr ∈ (process_job_failure_path s job_id topic user_id msg true now).active_jobs,
        pr.1 ≠ topic)
  ∧ (get_health_metrics n
        (process_job_failure_path s job_id topic user_id msg true now)).jobs_processing =
      (process_job_failure_path s job_id topic user_id msg true now).active_jobs.length
  ∧ (∃ x ∈ (process_job_failure_path s job_id topic user_id msg true now).db,
        x.id = job_id ∧ x.topic = topic ∧ x.status = JobStatus.queued)
  ∧ (∃ st, add_job (process_job_failure_path s job_id topic user_id msg true now)
        topic user2 p2 job_id2 now2 =
      Except.error ("Job already " ++ statusStr st ++ " for topic: " ++ topic)) := by
  have hrc' : findRetryCount s.db job_id < MAX_RETRIES := by
    unfold findRetryCount
    rw [hfind]
    exact hrc
  have hmem : row ∈ s.db := List.mem_of_find?_eq_some hfind
  have hid : row.id = job_id := by
    have h := List.find?_some hfind
    simpa using h
  have hdb2 : (process_job_failure_path s job_id topic user_id msg true now).db =
      s.db.map (fun j =>
        if j.id = job_id then
          { j with
              status := JobStatus.queued,
              error := some (.structured ⟨"transient", msg, true⟩),
              retry_count := findRetryCount s.db job_id + 1,
              last_retry_at := some now,
              updated_at := now }
        else j) := by
    show (handle_job_failure s job_id topic user_id msg true now).db = _
    rw [handle_job_failure_retry s job_id topic user_id msg now hrc']
  have hdbmem : ∃ x ∈ (process_job_failure_path s job_id topic user_id msg true now).db,
      x.id = job_id ∧ x.topic = topic ∧ x.status = JobStatus.queued := by
    rw [hdb2]
    refine ⟨_, List.mem_map_of_mem _ hmem, ?_⟩
    rw [if_pos hid]
    exact ⟨hid, htopic, rfl⟩
  refine ⟨fun pr hpr => dictRemove_keys _ topic pr hpr, rfl, hdbmem, ?_⟩
  have hsome :
      ((process_job_failure_path s job_id topic user_id msg true now).db.find?
        (activeForTopic topic)).isSome := by
    rw [List.find?_isSome]
    obtain ⟨x, hx, hx1, hx2, hx3⟩ := hdbmem
    exact ⟨x, hx, by simp [activeForTopic, hx2, hx3]⟩
  obtain ⟨ex, hex⟩ := Option.isSome_iff_exists.mp hsome
  refine ⟨ex.status, ?_⟩
  have hlookup :
      dictLookup (process_job_failure_path s job_id topic user_id msg true now).active_jobs
        topic = none :=
    dictLookup_dictRemove _ topic
  unfold add_job
  simp [hlookup, hex]

/-- Witness for claim C10's theorem at a concrete one-row state whose cache
still holds the topic when the failure handler runs. -/
theorem retry_requeued_job_invisible_to_cache_witness :
    (∀ pr ∈ (process_job_failure_path ⟨[exJob], [("t1", "j1")], []⟩
        "j1" "t1" "u1" "boom" true 7).active_jobs, pr.1 ≠ "t1")
  ∧ (get_health_metrics 2 (process_job_failure_path ⟨[exJob], [("t1", "j1")], []⟩
        "j1" "t1" "u1" "boom" true 7)).jobs_processing =
      (process_job_failure_path ⟨[exJob], [("t1", "j1")], []⟩
        "j1" "t1" "u1" "boom" true 7).active_jobs.length
  ∧ (∃ x ∈ (process_job_failure_path ⟨[exJob], [("t1", "j1")], []⟩
        "j1" "t1" "u1" "boom" true 7).db,
        x.id = "j1" ∧ x.topic = "t1" ∧ x.status = JobStatus.queued)
  ∧ (∃ st, add_job (process_job_failure_path ⟨[exJob], [("t1", "j1")], []⟩
        "j1" "t1" "u1" "boom" true 7) "t1" "u2" 5 "j2" 8 =
      Except.error ("Job already " ++ statusStr st ++ " for topic: " ++ "t1")) :=
  retry_requeued_job_invisible_to_cache ⟨[exJob], [("t1", "j1")], []⟩
    "j1" "t1" "u1" "boom" 7 2 "u2" 5 "j2" 8 exJob (by decide) (by decide) (by decide)

end FeedFocus
